import Mathlib

/-!
Shallow embedding of hummingbird/ml/operator_converters/onnx/onnx_operator.py.

The module defines ten small torch operator units (Cast, Reshape, Sum, Add,
Less, Neg, Abs, Mul, Div, plus a delegated Concat) and one converter factory
per unit.  Tensors are modelled as a dtype tag, a shape, and a flat list of
rational element values (idealised reals: float32/float64 rounding is not
modelled, matching the spec's "up to representable precision" reading; the
int64 cast truncates toward zero exactly as torch does).  Python exceptions
become an explicit error type; an assertion error carries the text of the
asserted expression, which is how a Python traceback identifies the failing
assert statement.
-/

namespace HB

/-- Python exceptions visible in this module: bare assert statements,
dictionary key lookups, list indexing, raised RuntimeErrors, and the
TypeError torch raises on a wrong number of positional arguments. -/
inductive PyErr where
  | assertionError (stmt : String)
  | keyError (key : String)
  | indexError (msg : String)
  | runtimeError (msg : String)
  | typeError (msg : String)
deriving DecidableEq

/-- The torch element dtypes this module can produce. -/
inductive DType where
  | float32
  | int64
  | float64
  | boolean
deriving DecidableEq

/-- A torch tensor: dtype tag, shape, and elements in row-major linear order.
Element values are rationals; a boolean tensor stores 0 and 1. -/
structure Tensor where
  dtype : DType
  shape : List Nat
  data : List ℚ
deriving DecidableEq

/-- Number of elements a tensor of this shape holds. -/
def Tensor.numel (t : Tensor) : Nat := t.shape.prod

/-- The flat data list has exactly as many entries as the shape demands. -/
def Tensor.wellFormed (t : Tensor) : Prop := t.data.length = t.shape.prod

instance (t : Tensor) : Decidable t.wellFormed := by
  unfold Tensor.wellFormed
  infer_instance

/-- Truncation toward zero, the conversion torch's .long() applies to each
element value. -/
def truncQ (q : ℚ) : Int := if 0 ≤ q then ⌊q⌋ else ⌈q⌉

/-- torch x.float(): retag as float32, values preserved (idealised). -/
def Tensor.float (x : Tensor) : Tensor :=
  { dtype := DType.float32, shape := x.shape, data := x.data }

/-- torch x.long(): retag as int64, each value truncated toward zero. -/
def Tensor.long (x : Tensor) : Tensor :=
  { dtype := DType.int64, shape := x.shape, data := x.data.map (fun q => (truncQ q : ℚ)) }

/-- torch x.double(): retag as float64, values preserved (idealised). -/
def Tensor.double (x : Tensor) : Tensor :=
  { dtype := DType.float64, shape := x.shape, data := x.data }

/-- torch type promotion restricted to the dtypes this module produces. -/
def promoteDType (a b : DType) : DType :=
  if a = b then a
  else if a = DType.float64 ∨ b = DType.float64 then DType.float64
  else if a = DType.float32 ∨ b = DType.float32 then DType.float32
  else DType.int64

/-- torch.add of two tensors.  The spec leaves broadcasting an open question
("do not assume full broadcasting"), so only equal shapes are modelled;
a shape mismatch surfaces as the generic torch runtime error. -/
def torchAdd (a b : Tensor) : Except PyErr Tensor :=
  if a.shape = b.shape then
    Except.ok { dtype := promoteDType a.dtype b.dtype, shape := a.shape,
                data := List.zipWith (fun u v => u + v) a.data b.data }
  else
    Except.error (PyErr.runtimeError "The size of tensor a must match the size of tensor b")

/-- Result of torch's shape inference for reshape/view: given the requested
dimension list (which may hold one -1) and the input element count, the
concrete output shape, when one exists. -/
def inferShape (shape : List Int) (numel : Nat) : Option (List Nat) :=
  if shape.any (fun d => d < -1) then none
  else if (shape.filter (fun d => d = -1)).length > 1 then none
  else if (shape.filter (fun d => d = -1)).length = 1 then
    let known : Nat := (shape.filter (fun d => d ≠ -1)).prod.toNat
    if known ≠ 0 ∧ numel % known = 0 then
      some (shape.map (fun d => if d = -1 then numel / known else d.toNat))
    else none
  else if shape.prod = (numel : Int) then some (shape.map Int.toNat)
  else none

/-- torch.reshape: reinterpret the elements into the requested shape, with
torch's single -1 inference; any other mismatch raises. -/
def torchReshape (x : Tensor) (shape : List Int) : Except PyErr Tensor :=
  match inferShape shape x.numel with
  | some s => Except.ok { dtype := x.dtype, shape := s, data := x.data }
  | none => Except.error (PyErr.runtimeError "shape is invalid for input size")

/-- class Cast: holds the target ONNX type code.  __init__ asserts the code
is not None, so a constructed unit always carries a concrete code. -/
structure Cast where
  _to_type : Int
deriving DecidableEq

/-- Cast.__init__(self, to_type): assert to_type is not None, then store it. -/
def Cast.init (to_type : Option Int) : Except PyErr Cast :=
  match to_type with
  | none => Except.error (PyErr.assertionError "to_type is not None")
  | some t => Except.ok { _to_type := t }

/-- Cast.forward: dispatch on the stored code; 1 casts to float32, 7 to
int64, 11 to float64, anything else raises a RuntimeError naming the code. -/
def Cast.forward (self : Cast) (x : Tensor) : Except PyErr Tensor :=
  if self._to_type = 1 then Except.ok x.float
  else if self._to_type = 7 then Except.ok x.long
  else if self._to_type = 11 then Except.ok x.double
  else Except.error (PyErr.runtimeError
    ("Cast to ONNX type " ++ toString self._to_type ++
     " not supported yet. Please fill an issue at https://github.com/microsoft/hummingbird"))

/-- class Reshape: holds the target shape list. -/
structure Reshape where
  shape : List Int
deriving DecidableEq

/-- Reshape.forward: torch.reshape(x, self.shape). -/
def Reshape.forward (self : Reshape) (x : Tensor) : Except PyErr Tensor :=
  torchReshape x self.shape

/-- class Sum: no construction parameters. -/
structure Sum where
deriving DecidableEq

/-- Sum.forward: torch.sum(x).view(1) — the sum of every element as a
one-element rank-1 tensor (torch.sum promotes a boolean input to int64). -/
def Sum.forward (_self : Sum) (x : Tensor) : Tensor :=
  { dtype := if x.dtype = DType.boolean then DType.int64 else x.dtype,
    shape := [1], data := [x.data.sum] }

/-- class Add: holds the fixed operand, stored as a rank-1 float32 tensor
(torch.nn.Parameter(torch.FloatTensor(val))). -/
structure Add where
  val : Tensor
deriving DecidableEq

/-- Add.__init__(self, val): wrap the float list as a frozen FloatTensor. -/
def Add.init (val : List ℚ) : Add :=
  { val := { dtype := DType.float32, shape := [val.length], data := val } }

/-- Add.forward(self, *x): with one live input add it to the stored operand,
otherwise add the live inputs to each other (torch.add takes exactly two
positional tensors, so any other arity is a TypeError). -/
def Add.forward (self : Add) (x : List Tensor) : Except PyErr Tensor :=
  match x with
  | [a] => torchAdd a self.val
  | [a, b] => torchAdd a b
  | _ => Except.error (PyErr.typeError "add() received an invalid combination of arguments")

/-- class Less: holds the fixed scalar threshold. -/
structure Less where
  val : ℚ
deriving DecidableEq

/-- Less.forward: torch.lt(x, self.val), a boolean tensor of the same shape. -/
def Less.forward (self : Less) (x : Tensor) : Tensor :=
  { dtype := DType.boolean, shape := x.shape,
    data := x.data.map (fun v => if v < self.val then 1 else 0) }

/-- class Neg: no construction parameters. -/
structure Neg where
deriving DecidableEq

/-- Neg.forward: torch.neg(x).view(-1) — negate elementwise, flatten to
rank 1 (view(-1) infers the single dimension as the element count). -/
def Neg.forward (_self : Neg) (x : Tensor) : Tensor :=
  { dtype := x.dtype, shape := [x.shape.prod], data := x.data.map (fun v => -v) }

/-- class Abs: no construction parameters. -/
structure Abs where
deriving DecidableEq

/-- Abs.forward: torch.abs(x), elementwise absolute value. -/
def Abs.forward (_self : Abs) (x : Tensor) : Tensor :=
  { dtype := x.dtype, shape := x.shape, data := x.data.map (fun v => |v|) }

/-- class Mul: holds the fixed scalar factor. -/
structure Mul where
  val : ℚ
deriving DecidableEq

/-- Mul.forward: torch.mul(x, self.val), elementwise scalar multiply (a
Python float scalar promotes an integral input to float32). -/
def Mul.forward (self : Mul) (x : Tensor) : Tensor :=
  { dtype := if x.dtype = DType.float64 then DType.float64 else DType.float32,
    shape := x.shape, data := x.data.map (fun v => v * self.val) }

/-- class Div: no construction parameters.  Division itself is exercised by
no claim, so only the unit the factory returns is modelled. -/
structure Div where
deriving DecidableEq

/-- Modelled from the spec: the shared concatenation unit lives in
_pipeline_implementations, which is not among the provided sources; per the
spec the Concat factory "delegates construction entirely to the shared
concatenation-unit constructor", which takes no parameters and cannot fail. -/
structure Concat where
deriving DecidableEq

/-- One entry of an ONNX node's attribute list; for this module only the
name and the integer payload field i are read. -/
structure AttributeProto where
  name : String
  i : Int
deriving DecidableEq

/-- The ONNX NodeProto fields this module reads: the attribute list and the
ordered input references. -/
structure NodeProto where
  attrs : List AttributeProto
  input : List String
deriving DecidableEq

/-- The wrapper the host pipeline hands to a converter: operator.raw_operator
.origin is the underlying ONNX node. -/
structure RawOperator where
  origin : NodeProto
deriving DecidableEq

/-- The operator argument of every factory. -/
structure Operator where
  raw_operator : RawOperator
deriving DecidableEq

/-- An ONNX initializer tensor; this module reads its int64_data and
float_data payloads. -/
structure TensorProto where
  int64_data : List Int
  float_data : List ℚ
deriving DecidableEq

/-- The initializer table: a string-keyed dictionary of constant tensors. -/
def Initializers : Type := List (String × TensorProto)

/-- Modelled from the spec: constants.ONNX_INITIALIZERS (the constants
module is not among the provided sources) is the well-known key under which
the extra-configuration map carries the initializer table. -/
def ONNX_INITIALIZERS : String := "onnx_initializers"

/-- The extra_config dictionary, modelled at the keys this module reads:
each entry pairs a string key with an initializer table. -/
def ExtraConfig : Type := List (String × Initializers)

/-- Python dictionary indexing d[k]: the value, or a KeyError. -/
def dictGet {α : Type} (d : List (String × α)) (k : String) : Except PyErr α :=
  match d.find? (fun p => p.1 = k) with
  | some p => Except.ok p.2
  | none => Except.error (PyErr.keyError k)

/-- Python list indexing l[i] for a nonnegative index: the element, or an
IndexError. -/
def pyIndex {α : Type} (l : List α) (i : Nat) : Except PyErr α :=
  match l.get? i with
  | some v => Except.ok v
  | none => Except.error (PyErr.indexError "list index out of range")

/-- The bare assert statement every factory opens with. -/
def nodeAssert : PyErr := PyErr.assertionError "operator is not None"

/-- convert_onnx_cast: assert the operator, scan its attribute list for one
named "to" (a later match overwrites an earlier one), and build a Cast unit
from the result, which may still be None. -/
def convert_onnx_cast (operator : Option Operator) (_device : Option String)
    (_extra_config : ExtraConfig) : Except PyErr Cast :=
  match operator with
  | none => Except.error nodeAssert
  | some op =>
    let to_type : Option Int := op.raw_operator.origin.attrs.foldl
      (fun acc attr => if attr.name = "to" then some attr.i else acc) none
    Cast.init to_type

/-- convert_onnx_concat: assert the operator, return the delegated Concat
unit. -/
def convert_onnx_concat (operator : Option Operator) (_device : Option String)
    (_extra_config : ExtraConfig) : Except PyErr Concat :=
  match operator with
  | none => Except.error nodeAssert
  | some _ => Except.ok {}

/-- convert_onnx_reshape: assert the operator, fetch the initializer table
from extra_config, resolve the node's second input reference in it, and use
its int64_data as the target shape. -/
def convert_onnx_reshape (operator : Option Operator) (_device : Option String)
    (extra_config : ExtraConfig) : Except PyErr Reshape :=
  match operator with
  | none => Except.error nodeAssert
  | some op => do
    let initializers ← dictGet extra_config ONNX_INITIALIZERS
    let ref ← pyIndex op.raw_operator.origin.input 1
    let tp ← dictGet initializers ref
    Except.ok { shape := tp.int64_data }

/-- convert_onnx_sum: assert the operator, return a parameterless Sum. -/
def convert_onnx_sum (operator : Option Operator) (_device : Option String)
    (_extra_config : ExtraConfig) : Except PyErr Sum :=
  match operator with
  | none => Except.error nodeAssert
  | some _ => Except.ok {}

/-- convert_onnx_add: assert the operator, look up the initializer under the
fixed literal key "cst1", and use its float_data as the stored operand. -/
def convert_onnx_add (operator : Option Operator) (_device : Option String)
    (extra_config : ExtraConfig) : Except PyErr Add :=
  match operator with
  | none => Except.error nodeAssert
  | some _ => do
    let initializers ← dictGet extra_config ONNX_INITIALIZERS
    let val ← dictGet initializers "cst1"
    Except.ok (Add.init val.float_data)

/-- convert_onnx_neg: assert the operator, return a parameterless Neg. -/
def convert_onnx_neg (operator : Option Operator) (_device : Option String)
    (_extra_config : ExtraConfig) : Except PyErr Neg :=
  match operator with
  | none => Except.error nodeAssert
  | some _ => Except.ok {}

/-- convert_onnx_abs: assert the operator, return a parameterless Abs. -/
def convert_onnx_abs (operator : Option Operator) (_device : Option String)
    (_extra_config : ExtraConfig) : Except PyErr Abs :=
  match operator with
  | none => Except.error nodeAssert
  | some _ => Except.ok {}

/-- convert_onnx_mul: assert the operator, look up initializer "cst3", and
use the first entry of its float_data as the stored scalar. -/
def convert_onnx_mul (operator : Option Operator) (_device : Option String)
    (extra_config : ExtraConfig) : Except PyErr Mul :=
  match operator with
  | none => Except.error nodeAssert
  | some _ => do
    let initializers ← dictGet extra_config ONNX_INITIALIZERS
    let val ← dictGet initializers "cst3"
    let v0 ← pyIndex val.float_data 0
    Except.ok { val := v0 }

/-- convert_onnx_div: assert the operator, return a parameterless Div. -/
def convert_onnx_div (operator : Option Operator) (_device : Option String)
    (_extra_config : ExtraConfig) : Except PyErr Div :=
  match operator with
  | none => Except.error nodeAssert
  | some _ => Except.ok {}

/-- convert_onnx_less: assert the operator, look up initializer "cst0", and
use the first entry of its float_data as the stored scalar. -/
def convert_onnx_less (operator : Option Operator) (_device : Option String)
    (extra_config : ExtraConfig) : Except PyErr Less :=
  match operator with
  | none => Except.error nodeAssert
  | some _ => do
    let initializers ← dictGet extra_config ONNX_INITIALIZERS
    let val ← dictGet initializers "cst0"
    let v0 ← pyIndex val.float_data 0
    Except.ok { val := v0 }

/-- State-passing form of Cast.forward: the method reads self._to_type and
never assigns a field of self, so the unit comes back unchanged. -/
def Cast.forwardS (self : Cast) (x : Tensor) : Cast × Except PyErr Tensor :=
  (self, Cast.forward self x)

/-- State-passing form of Reshape.forward: self.shape is only read. -/
def Reshape.forwardS (self : Reshape) (x : Tensor) : Reshape × Except PyErr Tensor :=
  (self, Reshape.forward self x)

/-- State-passing form of Add.forward: self.val is only read. -/
def Add.forwardS (self : Add) (x : List Tensor) : Add × Except PyErr Tensor :=
  (self, Add.forward self x)

/-- State-passing form of Less.forward: self.val is only read. -/
def Less.forwardS (self : Less) (x : Tensor) : Less × Tensor :=
  (self, Less.forward self x)

/-- State-passing form of Mul.forward: self.val is only read. -/
def Mul.forwardS (self : Mul) (x : Tensor) : Mul × Tensor :=
  (self, Mul.forward self x)

/-! ### Helper lemmas -/

/-- A scan of an attribute list that matches no entry leaves the
accumulator unchanged. -/
lemma foldl_to_eq_acc (l : List AttributeProto) (acc : Option Int)
    (h : ∀ a ∈ l, a.name ≠ "to") :
    l.foldl (fun acc attr => if attr.name = "to" then some attr.i else acc) acc = acc := by
  induction l generalizing acc with
  | nil => rfl
  | cons a l ih =>
    have ha : a.name ≠ "to" := h a (List.mem_cons_self a l)
    simp only [List.foldl_cons, if_neg ha]
    exact ih acc (fun b hb => h b (List.mem_cons_of_mem a hb))

/-- Truncation toward zero is the identity on integral rationals. -/
lemma truncQ_eq_self {q : ℚ} (h : q.den = 1) : (truncQ q : ℚ) = q := by
  unfold truncQ
  split
  · rw [← Rat.coe_int_num_of_den_eq_one h, Int.floor_intCast]
  · rw [← Rat.coe_int_num_of_den_eq_one h, Int.ceil_intCast]

/-- A failing dictionary access yields a KeyError on the requested key. -/
lemma dictGet_error_eq {α : Type} {d : List (String × α)} {k : String} {e : PyErr}
    (h : dictGet d k = Except.error e) : e = PyErr.keyError k := by
  unfold dictGet at h
  cases hf : d.find? (fun p => p.1 = k) <;> rw [hf] at h
  · exact (Except.error.injEq _ _ ▸ h).symm
  · cases h

/-- A failing list access yields an IndexError. -/
lemma pyIndex_error_eq {α : Type} {l : List α} {i : Nat} {e : PyErr}
    (h : pyIndex l i = Except.error e) : e = PyErr.indexError "list index out of range" := by
  unfold pyIndex at h
  cases hf : l.get? i <;> rw [hf] at h
  · exact (Except.error.injEq _ _ ▸ h).symm
  · cases h

/-- Binding an error short-circuits in the Except monad. -/
lemma except_error_bind {ε α β : Type} (e : ε) (f : α → Except ε β) :
    (Except.error e >>= f) = Except.error e := rfl

/-- Binding a success applies the continuation in the Except monad. -/
lemma except_ok_bind {ε α β : Type} (a : α) (f : α → Except ε β) :
    (Except.ok a >>= f) = f a := rfl

/-- The Cast factory on a live node never raises the factory's own
node assertion; any failure is the constructor's to_type assertion. -/
lemma cast_factory_ne_nodeAssert (op : Operator) (d : Option String) (ec : ExtraConfig) :
    convert_onnx_cast (some op) d ec ≠ Except.error nodeAssert := by
  cases hf : op.raw_operator.origin.attrs.foldl
      (fun acc attr => if attr.name = "to" then some attr.i else acc) none with
  | none => simp [convert_onnx_cast, Cast.init, hf, nodeAssert]
  | some t => simp [convert_onnx_cast, Cast.init, hf]

/-- The Reshape factory on a live node never raises the node assertion;
its failures are key or index errors from the unguarded lookups. -/
lemma reshape_factory_ne_nodeAssert (op : Operator) (d : Option String) (ec : ExtraConfig) :
    convert_onnx_reshape (some op) d ec ≠ Except.error nodeAssert := by
  rcases hI : dictGet ec ONNX_INITIALIZERS with eI | inits
  · rcases dictGet_error_eq hI with rfl
    simp [convert_onnx_reshape, hI, except_error_bind, nodeAssert]
  rcases hR : pyIndex op.raw_operator.origin.input 1 with eR | ref
  · rcases pyIndex_error_eq hR with rfl
    simp [convert_onnx_reshape, hI, hR, except_error_bind, except_ok_bind, nodeAssert]
  rcases hT : dictGet inits ref with eT | tp
  · rcases dictGet_error_eq hT with rfl
    simp [convert_onnx_reshape, hI, hR, hT, except_error_bind, except_ok_bind, nodeAssert]
  simp [convert_onnx_reshape, hI, hR, hT, except_error_bind, except_ok_bind, nodeAssert]

/-- The Add factory on a live node never raises the node assertion. -/
lemma add_factory_ne_nodeAssert (op : Operator) (d : Option String) (ec : ExtraConfig) :
    convert_onnx_add (some op) d ec ≠ Except.error nodeAssert := by
  rcases hI : dictGet ec ONNX_INITIALIZERS with eI | inits
  · rcases dictGet_error_eq hI with rfl
    simp [convert_onnx_add, hI, except_error_bind, nodeAssert]
  rcases hT : dictGet inits "cst1" with eT | tp
  · rcases dictGet_error_eq hT with rfl
    simp [convert_onnx_add, hI, hT, except_error_bind, except_ok_bind, nodeAssert]
  simp [convert_onnx_add, hI, hT, except_error_bind, except_ok_bind, nodeAssert]

/-- The Mul factory on a live node never raises the node assertion. -/
lemma mul_factory_ne_nodeAssert (op : Operator) (d : Option String) (ec : ExtraConfig) :
    convert_onnx_mul (some op) d ec ≠ Except.error nodeAssert := by
  rcases hI : dictGet ec ONNX_INITIALIZERS with eI | inits
  · rcases dictGet_error_eq hI with rfl
    simp [convert_onnx_mul, hI, except_error_bind, nodeAssert]
  rcases hT : dictGet inits "cst3" with eT | tp
  · rcases dictGet_error_eq hT with rfl
    simp [convert_onnx_mul, hI, hT, except_error_bind, except_ok_bind, nodeAssert]
  rcases hV : pyIndex tp.float_data 0 with eV | v0
  · rcases pyIndex_error_eq hV with rfl
    simp [convert_onnx_mul, hI, hT, hV, except_error_bind, except_ok_bind, nodeAssert]
  simp [convert_onnx_mul, hI, hT, hV, except_error_bind, except_ok_bind, nodeAssert]

/-- The Less factory on a live node never raises the node assertion. -/
lemma less_factory_ne_nodeAssert (op : Operator) (d : Option String) (ec : ExtraConfig) :
    convert_onnx_less (some op) d ec ≠ Except.error nodeAssert := by
  rcases hI : dictGet ec ONNX_INITIALIZERS with eI | inits
  · rcases dictGet_error_eq hI with rfl
    simp [convert_onnx_less, hI, except_error_bind, nodeAssert]
  rcases hT : dictGet inits "cst0" with eT | tp
  · rcases dictGet_error_eq hT with rfl
    simp [convert_onnx_less, hI, hT, except_error_bind, except_ok_bind, nodeAssert]
  rcases hV : pyIndex tp.float_data 0 with eV | v0
  · rcases pyIndex_error_eq hV with rfl
    simp [convert_onnx_less, hI, hT, hV, except_error_bind, except_ok_bind, nodeAssert]
  simp [convert_onnx_less, hI, hT, hV, except_error_bind, except_ok_bind, nodeAssert]

/-- torch.reshape at a nonnegative dimension list whose product matches the
element count succeeds and installs the requested shape verbatim. -/
lemma torchReshape_natShape (x : Tensor) (s : List Nat) (hs : s.prod = x.numel) :
    torchReshape x (s.map (fun n : Nat => (n : Int))) =
      Except.ok { dtype := x.dtype, shape := s, data := x.data } := by
  have hany : (s.map (fun n : Nat => (n : Int))).any (fun d => decide (d < -1)) = false := by
    rw [List.any_eq_false]
    intro d hd
    rcases List.mem_map.mp hd with ⟨m, _, rfl⟩
    simp only [decide_eq_true_eq, not_lt]
    omega
  have hfilter : (s.map (fun n : Nat => (n : Int))).filter (fun d => decide (d = -1)) = [] := by
    rw [List.filter_eq_nil_iff]
    intro d hd
    rcases List.mem_map.mp hd with ⟨m, _, rfl⟩
    simp only [decide_eq_true_eq]
    omega
  have hprod : (s.map (fun n : Nat => (n : Int))).prod = ((s.prod : Nat) : Int) := by
    rw [Nat.cast_list_prod]
  have hback : (s.map (fun n : Nat => (n : Int))).map Int.toNat = s := by
    rw [List.map_map]
    have : (Int.toNat ∘ fun n : Nat => (n : Int)) = id := by
      funext n
      simp [Int.toNat_natCast]
    rw [this, List.map_id]
  unfold torchReshape inferShape
  rw [hany, hfilter]
  simp only [List.length_nil, gt_iff_lt, Nat.lt_irrefl, if_false, hprod, hs]
  norm_num [hback]

/-! ### Claim statements and proofs -/

/-- The dtype each supported ONNX type code designates: 1 is float32, 7 is
int64, 11 is float64. -/
def dtypeOfCode (t : Int) : DType :=
  if t = 7 then DType.int64 else if t = 11 then DType.float64 else DType.float32

/-- A rational value is exactly representable in a dtype: any value in the
idealised float dtypes, integral values in int64, 0 and 1 in boolean. -/
def representable : DType → ℚ → Prop
  | DType.int64, q => q.den = 1
  | DType.boolean, q => q = 0 ∨ q = 1
  | _, _ => True

/-- C1 (counterexample): called on a node with no attribute named "to", the
Cast factory does not return a unit at all — the constructor assertion on
to_type fires already at construction time, inside the factory call. -/
theorem cast_factory_missing_to_cex :
    convert_onnx_cast (some { raw_operator := { origin := { attrs := [], input := [] } } })
        none [] =
      Except.error (PyErr.assertionError "to_type is not None") ∧
    (convert_onnx_cast (some { raw_operator := { origin := { attrs := [], input := [] } } })
        none []).isOk = false :=
  ⟨rfl, rfl⟩

/-- C1 (amended): if the Cast factory is invoked on a node whose attribute
list contains no attribute named "to", the target type stays None and the
Cast constructor's assertion fails immediately, so the factory call itself
raises at construction time and no unit is produced (rather than a unit
failing later at apply time). -/
theorem cast_factory_missing_to_asserts (op : Operator) (d : Option String)
    (ec : ExtraConfig) (h : ∀ a ∈ op.raw_operator.origin.attrs, a.name ≠ "to") :
    convert_onnx_cast (some op) d ec =
      Except.error (PyErr.assertionError "to_type is not None") := by
  have heq : convert_onnx_cast (some op) d ec =
      Cast.init (op.raw_operator.origin.attrs.foldl
        (fun acc attr => if attr.name = "to" then some attr.i else acc) none) := rfl
  rw [heq, foldl_to_eq_acc op.raw_operator.origin.attrs none h]
  rfl

/-- Witness for C1's amended theorem at a concrete node carrying one
attribute that is not named "to". -/
theorem cast_factory_missing_to_asserts_witness :
    convert_onnx_cast
        (some { raw_operator := { origin :=
          { attrs := [{ name := "axis", i := 0 }], input := [] } } }) none [] =
      Except.error (PyErr.assertionError "to_type is not None") :=
  cast_factory_missing_to_asserts
    { raw_operator := { origin := { attrs := [{ name := "axis", i := 0 }], input := [] } } }
    none [] (by decide)

/-- C2: for a Cast unit whose code is 1, 7 or 11, apply succeeds and returns
a tensor of the corresponding dtype (float32, int64, float64), with the
input's shape and element count, and with every element value that is
representable in the target dtype preserved exactly. -/
theorem cast_supported_codes (t : Int) (ht : t = 1 ∨ t = 7 ∨ t = 11) (x : Tensor) :
    ∃ y : Tensor, Cast.forward { _to_type := t } x = Except.ok y ∧
      y.dtype = dtypeOfCode t ∧ y.shape = x.shape ∧ y.data.length = x.data.length ∧
      ∀ i : Nat, representable (dtypeOfCode t) (x.data.getD i 0) →
        y.data.getD i 0 = x.data.getD i 0 := by
  rcases ht with rfl | rfl | rfl
  · exact ⟨x.float, rfl, rfl, rfl, rfl, fun i _ => rfl⟩
  · refine ⟨x.long, rfl, rfl, rfl, List.length_map _ _, fun i hi => ?_⟩
    show (x.data.map (fun q => (truncQ q : ℚ))).getD i 0 = x.data.getD i 0
    rw [List.getD_eq_getElem?_getD, List.getD_eq_getElem?_getD, List.getElem?_map]
    rcases hg : x.data[i]? with _ | a
    · rfl
    · have hrep : a.den = 1 := by
        have hx : x.data.getD i 0 = a := by
          rw [List.getD_eq_getElem?_getD, hg]
          rfl
        rw [hx] at hi
        exact hi
      simp [truncQ_eq_self hrep]
  · exact ⟨x.double, rfl, rfl, rfl, rfl, fun i _ => rfl⟩

/-- Witness for C2 at code 7 and a concrete tensor holding one integral and
one non-integral value. -/
theorem cast_supported_codes_witness :
    ∃ y : Tensor,
      Cast.forward { _to_type := 7 }
          { dtype := DType.float32, shape := [2], data := [3/2, -2] } = Except.ok y ∧
      y.dtype = dtypeOfCode 7 ∧
      y.shape = Tensor.shape { dtype := DType.float32, shape := [2], data := [3/2, -2] } ∧
      y.data.length =
        (Tensor.data { dtype := DType.float32, shape := [2], data := [3/2, -2] }).length ∧
      ∀ i : Nat, representable (dtypeOfCode 7)
          ((Tensor.data { dtype := DType.float32, shape := [2], data := [3/2, -2] }).getD i 0) →
        y.data.getD i 0 =
          (Tensor.data { dtype := DType.float32, shape := [2], data := [3/2, -2] }).getD i 0 :=
  cast_supported_codes 7 (Or.inr (Or.inl rfl)) _

/-- C3: for a Cast unit whose code is outside {1, 7, 11}, apply raises a
RuntimeError whose message contains the exact offending code value. -/
theorem cast_unsupported_code_error (t : Int) (h1 : t ≠ 1) (h7 : t ≠ 7) (h11 : t ≠ 11)
    (x : Tensor) :
    ∃ pre post : String, Cast.forward { _to_type := t } x =
      Except.error (PyErr.runtimeError (pre ++ toString t ++ post)) := by
  refine ⟨"Cast to ONNX type ",
    " not supported yet. Please fill an issue at https://github.com/microsoft/hummingbird", ?_⟩
  unfold Cast.forward
  simp [h1, h7, h11]

/-- Witness for C3 at the concrete unsupported code 10 (float16). -/
theorem cast_unsupported_code_error_witness :
    ∃ pre post : String,
      Cast.forward { _to_type := 10 } { dtype := DType.float32, shape := [1], data := [0] } =
        Except.error (PyErr.runtimeError (pre ++ toString (10 : Int) ++ post)) :=
  cast_unsupported_code_error 10 (by decide) (by decide) (by decide) _

/-- C4: an Add unit given one live input of the operand's shape adds the
input to the stored operand elementwise; given two live inputs of equal
shape it adds them to each other elementwise, and the stored operand has no
effect on that result. -/
theorem add_forward_semantics (u : Add) (x y : Tensor)
    (hx : x.shape = u.val.shape) (hxy : x.shape = y.shape) :
    Add.forward u [x] = Except.ok
      { dtype := promoteDType x.dtype u.val.dtype, shape := x.shape,
        data := List.zipWith (fun a b => a + b) x.data u.val.data } ∧
    Add.forward u [x, y] = Except.ok
      { dtype := promoteDType x.dtype y.dtype, shape := x.shape,
        data := List.zipWith (fun a b => a + b) x.data y.data } ∧
    ∀ v : Add, Add.forward v [x, y] = Add.forward u [x, y] := by
  refine ⟨?_, ?_, fun v => rfl⟩
  · show torchAdd x u.val = _
    rw [torchAdd, if_pos hx]
  · show torchAdd x y = _
    rw [torchAdd, if_pos hxy]

/-- Witness for C4: the spec's concrete scenario, operand [2, 3] and live
input [1, 1], produces [3, 4]; with two live inputs the operand is unused. -/
theorem add_forward_semantics_witness :
    Add.forward (Add.init [2, 3])
        [{ dtype := DType.float32, shape := [2], data := [1, 1] }] =
      Except.ok { dtype := DType.float32, shape := [2], data := [3, 4] } ∧
    Add.forward (Add.init [2, 3])
        [{ dtype := DType.float32, shape := [2], data := [1, 1] },
         { dtype := DType.float32, shape := [2], data := [5, 6] }] =
      Except.ok { dtype := DType.float32, shape := [2], data := [6, 7] } := by
  have h := add_forward_semantics (Add.init [2, 3])
    { dtype := DType.float32, shape := [2], data := [1, 1] }
    { dtype := DType.float32, shape := [2], data := [5, 6] }
    (by rfl) (by rfl)
  refine ⟨h.1.trans ?_, h.2.1.trans ?_⟩
  · norm_num [Add.init, promoteDType]
  · norm_num [promoteDType]

/-- C5: reshaping a well-formed tensor to any shape whose product equals its
element count and then reshaping the result back to the original shape
reproduces the tensor exactly. -/
theorem reshape_roundtrip (x : Tensor) (s : List Nat)
    (hwf : x.wellFormed) (hs : s.prod = x.data.length) :
    ∃ y : Tensor,
      Reshape.forward { shape := s.map (fun n : Nat => (n : Int)) } x = Except.ok y ∧
      Reshape.forward { shape := x.shape.map (fun n : Nat => (n : Int)) } y = Except.ok x := by
  refine ⟨{ dtype := x.dtype, shape := s, data := x.data }, ?_, ?_⟩
  · exact torchReshape_natShape x s (hs.trans hwf)
  · have h2 := torchReshape_natShape { dtype := x.dtype, shape := s, data := x.data }
      x.shape (hwf.symm.trans hs.symm)
    exact h2

/-- Witness for C5: a 2-by-3 tensor reshaped to 3-by-2 and back. -/
theorem reshape_roundtrip_witness :
    ∃ y : Tensor,
      Reshape.forward { shape := [3, 2].map (fun n : Nat => (n : Int)) }
          { dtype := DType.float32, shape := [2, 3], data := [0, 1, 2, 3, 4, 5] } =
        Except.ok y ∧
      Reshape.forward { shape := [2, 3].map (fun n : Nat => (n : Int)) } y =
        Except.ok { dtype := DType.float32, shape := [2, 3], data := [0, 1, 2, 3, 4, 5] } :=
  reshape_roundtrip { dtype := DType.float32, shape := [2, 3], data := [0, 1, 2, 3, 4, 5] }
    [3, 2] (by decide) (by decide)

/-- C6: on a tensor of any rank, Sum returns a rank-1 tensor with exactly
one element, whose value is the arithmetic sum of all input elements. -/
theorem sum_forward_semantics (u : Sum) (x : Tensor) :
    (Sum.forward u x).shape = [1] ∧ (Sum.forward u x).data.length = 1 ∧
    (Sum.forward u x).data = [x.data.sum] :=
  ⟨rfl, rfl, rfl⟩

/-- C7: every factory fails with the node assertion exactly when the node is
null: on a null node each of the ten factories raises the precondition
assertion, and on a live node none of them ever raises it — their only other
failures are unguarded lookups or a unit constructor, never a factory
precondition check on attributes, initializers, or the extra-config map. -/
theorem factories_assert_nonnull_node_only :
    ((∀ (d : Option String) (ec : ExtraConfig),
        convert_onnx_cast none d ec = Except.error nodeAssert) ∧
     (∀ (d : Option String) (ec : ExtraConfig),
        convert_onnx_concat none d ec = Except.error nodeAssert) ∧
     (∀ (d : Option String) (ec : ExtraConfig),
        convert_onnx_reshape none d ec = Except.error nodeAssert) ∧
     (∀ (d : Option String) (ec : ExtraConfig),
        convert_onnx_sum none d ec = Except.error nodeAssert) ∧
     (∀ (d : Option String) (ec : ExtraConfig),
        convert_onnx_add none d ec = Except.error nodeAssert) ∧
     (∀ (d : Option String) (ec : ExtraConfig),
        convert_onnx_neg none d ec = Except.error nodeAssert) ∧
     (∀ (d : Option String) (ec : ExtraConfig),
        convert_onnx_abs none d ec = Except.error nodeAssert) ∧
     (∀ (d : Option String) (ec : ExtraConfig),
        convert_onnx_mul none d ec = Except.error nodeAssert) ∧
     (∀ (d : Option String) (ec : ExtraConfig),
        convert_onnx_div none d ec = Except.error nodeAssert) ∧
     (∀ (d : Option String) (ec : ExtraConfig),
        convert_onnx_less none d ec = Except.error nodeAssert)) ∧
    ((∀ (op : Operator) (d : Option String) (ec : ExtraConfig),
        convert_onnx_cast (some op) d ec ≠ Except.error nodeAssert) ∧
     (∀ (op : Operator) (d : Option String) (ec : ExtraConfig),
        convert_onnx_concat (some op) d ec ≠ Except.error nodeAssert) ∧
     (∀ (op : Operator) (d : Option String) (ec : ExtraConfig),
        convert_onnx_reshape (some op) d ec ≠ Except.error nodeAssert) ∧
     (∀ (op : Operator) (d : Option String) (ec : ExtraConfig),
        convert_onnx_sum (some op) d ec ≠ Except.error nodeAssert) ∧
     (∀ (op : Operator) (d : Option String) (ec : ExtraConfig),
        convert_onnx_add (some op) d ec ≠ Except.error nodeAssert) ∧
     (∀ (op : Operator) (d : Option String) (ec : ExtraConfig),
        convert_onnx_neg (some op) d ec ≠ Except.error nodeAssert) ∧
     (∀ (op : Operator) (d : Option String) (ec : ExtraConfig),
        convert_onnx_abs (some op) d ec ≠ Except.error nodeAssert) ∧
     (∀ (op : Operator) (d : Option String) (ec : ExtraConfig),
        convert_onnx_mul (some op) d ec ≠ Except.error nodeAssert) ∧
     (∀ (op : Operator) (d : Option String) (ec : ExtraConfig),
        convert_onnx_div (some op) d ec ≠ Except.error nodeAssert) ∧
     (∀ (op : Operator) (d : Option String) (ec : ExtraConfig),
        convert_onnx_less (some op) d ec ≠ Except.error nodeAssert)) :=
  ⟨⟨fun _ _ => rfl, fun _ _ => rfl, fun _ _ => rfl, fun _ _ => rfl, fun _ _ => rfl,
    fun _ _ => rfl, fun _ _ => rfl, fun _ _ => rfl, fun _ _ => rfl, fun _ _ => rfl⟩,
   cast_factory_ne_nodeAssert,
   fun _ _ _ h => Except.noConfusion h,
   reshape_factory_ne_nodeAssert,
   fun _ _ _ h => Except.noConfusion h,
   add_factory_ne_nodeAssert,
   fun _ _ _ h => Except.noConfusion h,
   fun _ _ _ h => Except.noConfusion h,
   mul_factory_ne_nodeAssert,
   fun _ _ _ h => Except.noConfusion h,
   less_factory_ne_nodeAssert⟩

/-- C8: on a tensor of any rank, Neg returns a rank-1 tensor holding the
negation of every input element in the same linear order. -/
theorem neg_forward_flattens (u : Neg) (x : Tensor) :
    (Neg.forward u x).shape.length = 1 ∧ (Neg.forward u x).shape = [x.numel] ∧
    (Neg.forward u x).data = x.data.map (fun v => -v) :=
  ⟨rfl, rfl, rfl⟩

/-- C9: applying Abs twice yields the same tensor as applying it once. -/
theorem abs_forward_idempotent (u : Abs) (x : Tensor) :
    Abs.forward u (Abs.forward u x) = Abs.forward u x := by
  unfold Abs.forward
  simp [List.map_map, Function.comp, abs_abs]

/-- C10: apply never modifies a unit's construction-time parameters — in
state-passing form each forward returns its unit unchanged (so the stored
operand, scalar, type code, or shape is the same after apply as before), and
a repeated application through the returned unit on the same input yields
the same output. -/
theorem units_preserve_parameters :
    (∀ (u : Add) (xs : List Tensor), (Add.forwardS u xs).1 = u ∧
      (Add.forwardS ((Add.forwardS u xs).1) xs).2 = (Add.forwardS u xs).2) ∧
    (∀ (u : Mul) (x : Tensor), (Mul.forwardS u x).1 = u ∧
      (Mul.forwardS ((Mul.forwardS u x).1) x).2 = (Mul.forwardS u x).2) ∧
    (∀ (u : Less) (x : Tensor), (Less.forwardS u x).1 = u ∧
      (Less.forwardS ((Less.forwardS u x).1) x).2 = (Less.forwardS u x).2) ∧
    (∀ (u : Cast) (x : Tensor), (Cast.forwardS u x).1 = u ∧
      (Cast.forwardS ((Cast.forwardS u x).1) x).2 = (Cast.forwardS u x).2) ∧
    (∀ (u : Reshape) (x : Tensor), (Reshape.forwardS u x).1 = u ∧
      (Reshape.forwardS ((Reshape.forwardS u x).1) x).2 = (Reshape.forwardS u x).2) :=
  ⟨fun _ _ => ⟨rfl, rfl⟩, fun _ _ => ⟨rfl, rfl⟩, fun _ _ => ⟨rfl, rfl⟩,
   fun _ _ => ⟨rfl, rfl⟩, fun _ _ => ⟨rfl, rfl⟩⟩

end HB
